import Mathlib

/-!
Verification of the `yearmonthdelta` library: a signed year/month calendar
offset type with normalization, date application (with a rounding policy for
impossible day-of-month results), arithmetic and comparison operators.

The definitions below are a shallow embedding of `src/yearmonthdelta.py`.
Machine integers of the source are Python arbitrary-precision ints, embedded
as `Int`.  Fallible operations return `Except PyError`.  The host calendar
facility (Python stdlib `calendar.monthrange` and `datetime.replace`
validation) is an external dependency of the library, modelled after the
spec's description of the host: days-in-month over the proleptic Gregorian
calendar, and date construction that validates year (1..9999), month (1..12)
and day (1..days-in-month).
-/

/-- Errors raised by the library or the host: Python TypeError and ValueError. -/
inductive PyError where
  | typeError (msg : String)
  | valueError (msg : String)
deriving DecidableEq

/-- The Delta value type: raw (unnormalized) years and months plus the
rounding policy flag.  Mirrors `yearmonthdelta.__init__`. -/
structure yearmonthdelta where
  years : Int
  months : Int
  rounding : Bool
deriving DecidableEq

/-- A host date-time: year/month/day plus a time-of-day component
(hour, minute) that the library never touches. -/
structure DateTime where
  year : Int
  month : Int
  day : Int
  hour : Int
  minute : Int
deriving DecidableEq

/-- Host model: Python `calendar.isleap` (proleptic Gregorian). -/
def isleap (year : Int) : Bool :=
  year % 4 == 0 && (year % 100 != 0 || year % 400 == 0)

/-- Host model: Python `calendar.mdays` month-length table (index 0 unused). -/
def mdays : List Nat :=
  [0, 31, 28, 31, 30, 31, 30, 31, 31, 30, 31, 30, 31]

/-- Host model: number of days of the given month, `mdays[month]` plus the
February leap-day correction, as in `calendar.monthrange`.  Only meaningful
for months 1..12 (callers validate). -/
def days_in_month (year month : Int) : Nat :=
  mdays.getD month.toNat 0 + (if month == 2 && isleap year then 1 else 0)

/-- Host model: `calendar.monthrange(year, month)[1]`; raises
IllegalMonthError (a ValueError) unless 1 <= month <= 12. -/
def monthrange (year month : Int) : Except PyError Nat :=
  if 1 ≤ month ∧ month ≤ 12 then .ok (days_in_month year month)
  else .error (.valueError "bad month number; must be 1-12")

/-- Host model: `datetime.replace(year, month, day)`: validates the new
fields in the order year, month, day (as CPython `_check_date_fields` does)
and keeps the time-of-day fields unchanged. -/
def DateTime.replace (dt : DateTime) (year month day : Int) :
    Except PyError DateTime :=
  if 1 ≤ year ∧ year ≤ 9999 then
    if 1 ≤ month ∧ month ≤ 12 then
      if 1 ≤ day ∧ day ≤ (days_in_month year month : Int) then
        .ok { dt with year := year, month := month, day := day }
      else .error (.valueError "day is out of range for month")
    else .error (.valueError "month must be in 1..12")
  else .error (.valueError "year must be in 1..9999")

/-- A valid host date: the fields a constructed `datetime` can hold. -/
def DateTime.valid (dt : DateTime) : Prop :=
  1 ≤ dt.year ∧ dt.year ≤ 9999 ∧ 1 ≤ dt.month ∧ dt.month ≤ 12 ∧
    1 ≤ dt.day ∧ dt.day ≤ (days_in_month dt.year dt.month : Int)

instance (dt : DateTime) : Decidable dt.valid := by
  unfold DateTime.valid
  exact inferInstance

/-- Embedding of `yearmonthdelta._normalize`: `divmod(abs(total) - 1, 12)` on
the nonnegative `abs(total) - 1` is Nat division, negated when the total is
negative. -/
def yearmonthdelta._normalize (years months : Int) : Int × Int :=
  let total := years * 12 + months
  if total = 0 then (0, 0)
  else
    let y : Nat := (total.natAbs - 1) / 12
    let m : Nat := (total.natAbs - 1) % 12 + 1
    if total < 0 then (-(y : Int), -(m : Int))
    else ((y : Int), (m : Int))

/-- Embedding of the `_total_months` property. -/
def yearmonthdelta._total_months (d : yearmonthdelta) : Int :=
  d.years * 12 + d.months

/-- Embedding of `yearmonthdelta._add_datetime`. -/
def yearmonthdelta._add_datetime (self : yearmonthdelta) (dt : DateTime) :
    Except PyError DateTime :=
  let day := dt.day
  let p := yearmonthdelta._normalize (dt.year + self.years)
    (dt.month + self.months)
  if self.rounding then
    match monthrange p.1 p.2 with
    | .error e => .error e
    | .ok n => dt.replace p.1 p.2 (min day (n : Int))
  else
    dt.replace p.1 p.2 day

/-- Embedding of `yearmonthdelta.__neg__`. -/
def yearmonthdelta.neg (d : yearmonthdelta) : yearmonthdelta :=
  ⟨-d.years, -d.months, d.rounding⟩

/-- Embedding of `yearmonthdelta.__pos__`. -/
def yearmonthdelta.pos (d : yearmonthdelta) : yearmonthdelta :=
  ⟨d.years, d.months, d.rounding⟩

/-- A dynamically typed operand of the Python operators: a Delta, an int, a
date/date-time, a float (its numeric value is irrelevant to every operation
modelled here), or a string. -/
inductive Operand where
  | delta (d : yearmonthdelta)
  | int (n : Int)
  | date (dt : DateTime)
  | float (x : Int)
  | str (s : String)
deriving DecidableEq

/-- Python type name of an operand, as used in error messages. -/
def Operand.typeName : Operand → String
  | .delta _ => "yearmonthdelta"
  | .int _ => "int"
  | .date _ => "datetime.datetime"
  | .float _ => "float"
  | .str _ => "str"

/-- Whether an operand is a Delta. -/
def Operand.isDelta : Operand → Bool
  | .delta _ => true
  | _ => false

/-- Whether an operand is an integer. -/
def Operand.isInt : Operand → Bool
  | .int _ => true
  | _ => false

/-- Embedding of `yearmonthdelta.__add__`: date/datetime first, then Delta,
then int; anything else is NotImplemented (`none`). -/
def delta_dunder_add (self : yearmonthdelta) (other : Operand) :
    Option (Except PyError Operand) :=
  match other with
  | .date dt => some ((self._add_datetime dt).map .date)
  | .delta o => some (.ok (.delta ⟨self.years + o.years,
      self.months + o.months, self.rounding && o.rounding⟩))
  | .int n => some (.ok (.delta ⟨self.years, self.months + n, self.rounding⟩))
  | _ => none

/-- Embedding of `yearmonthdelta.__radd__`: accepts a date/datetime on the
left, raises TypeError for anything else. -/
def delta_radd (self : yearmonthdelta) (other : Operand) :
    Except PyError Operand :=
  match other with
  | .date dt => (self._add_datetime dt).map .date
  | _ => .error (.typeError
      ("unsupported operand type for +: " ++ other.typeName ++
        " and yearmonthdelta"))

/-- Python dispatch for `a + b`: a Delta on the left uses its `__add__` with
the generic TypeError on NotImplemented (no other type right-adds a Delta);
a Delta on the right is reached through `__radd__` because the host int and
date `__add__` return NotImplemented for a Delta. -/
def pyAdd (a b : Operand) : Except PyError Operand :=
  match a, b with
  | .delta d, _ =>
    match delta_dunder_add d b with
    | some r => r
    | none => .error (.typeError
        ("unsupported operand type for +: yearmonthdelta and " ++ b.typeName))
  | _, .delta d => delta_radd d a
  | _, _ => .error (.typeError
      ("unsupported operand type for +: " ++ a.typeName ++ " and " ++
        b.typeName))

/-- Python unary minus on an operand: negates Deltas, ints and floats;
raises TypeError for dates and strings, which have no unary minus. -/
def opNeg : Operand → Except PyError Operand
  | .delta d => .ok (.delta d.neg)
  | .int n => .ok (.int (-n))
  | .float x => .ok (.float (-x))
  | .date _ => .error (.typeError "bad operand type for unary -: datetime.datetime")
  | .str _ => .error (.typeError "bad operand type for unary -: str")

/-- Embedding of `yearmonthdelta.__sub__`: `self.__add__(-other)`; an error
from negating `other` propagates, NotImplemented from `__add__` propagates. -/
def delta_dunder_sub (self : yearmonthdelta) (other : Operand) :
    Option (Except PyError Operand) :=
  match opNeg other with
  | .error e => some (.error e)
  | .ok o => delta_dunder_add self o

/-- Embedding of `yearmonthdelta.__rsub__`: a date/datetime on the left gets
`(-self)._add_datetime(other)`; anything else raises TypeError. -/
def delta_rsub (self : yearmonthdelta) (other : Operand) :
    Except PyError Operand :=
  match other with
  | .date dt => ((self.neg)._add_datetime dt).map .date
  | _ => .error (.typeError
      ("unsupported operand type for -: " ++ other.typeName ++
        " and yearmonthdelta"))

/-- Python dispatch for `a - b`, analogous to `pyAdd`. -/
def pySub (a b : Operand) : Except PyError Operand :=
  match a, b with
  | .delta d, _ =>
    match delta_dunder_sub d b with
    | some r => r
    | none => .error (.typeError
        ("unsupported operand type for -: yearmonthdelta and " ++ b.typeName))
  | _, .delta d => delta_rsub d a
  | _, _ => .error (.typeError
      ("unsupported operand type for -: " ++ a.typeName ++ " and " ++
        b.typeName))

/-- Embedding of `yearmonthdelta.__mul__`: multiplies componentwise by an
int, NotImplemented (`none`) otherwise. -/
def delta_dunder_mul (self : yearmonthdelta) (other : Operand) :
    Option Operand :=
  match other with
  | .int n => some (.delta ⟨self.years * n, self.months * n, self.rounding⟩)
  | _ => none

/-- Embedding of `yearmonthdelta.__rmul__`: delegates to `__mul__` and turns
NotImplemented into a TypeError. -/
def delta_rmul (self : yearmonthdelta) (other : Operand) :
    Except PyError Operand :=
  match delta_dunder_mul self other with
  | some p => .ok p
  | none => .error (.typeError
      ("unsupported operand type for *: " ++ other.typeName ++
        " and yearmonthdelta"))

/-- Python dispatch for `a * b`: a Delta on the left uses `__mul__` (for two
Deltas the reflected method is skipped, raising the generic TypeError); a
Delta on the right is reached through `__rmul__`. -/
def pyMul (a b : Operand) : Except PyError Operand :=
  match a, b with
  | .delta d, _ =>
    match delta_dunder_mul d b with
    | some p => .ok p
    | none => .error (.typeError
        ("unsupported operand type for *: yearmonthdelta and " ++ b.typeName))
  | _, .delta d => delta_rmul d a
  | _, _ => .error (.typeError
      ("unsupported operand type for *: " ++ a.typeName ++ " and " ++
        b.typeName))

/-- Embedding of `yearmonthdelta.__lt__`: compares total months of two
Deltas, raises TypeError against anything else. -/
def delta_lt (self : yearmonthdelta) (other : Operand) :
    Except PyError Bool :=
  match other with
  | .delta o => .ok (decide (self._total_months < o._total_months))
  | _ => .error (.typeError
      ("cannot compare yearmonthdelta to " ++ other.typeName))

/-- Embedding of `yearmonthdelta.__eq__`: equality of total months, raises
TypeError against a non-Delta. -/
def delta_eq (self : yearmonthdelta) (other : Operand) :
    Except PyError Bool :=
  match other with
  | .delta o => .ok (self._total_months == o._total_months)
  | _ => .error (.typeError
      ("cannot compare yearmonthdelta to " ++ other.typeName))

/-- Embedding of `yearmonthdelta.__ne__`: `not self.__eq__(other)`. -/
def delta_ne (self : yearmonthdelta) (other : Operand) :
    Except PyError Bool :=
  match delta_eq self other with
  | .error e => .error e
  | .ok b => .ok (!b)

/-- The `__gt__` filled in by `functools.total_ordering` from `__lt__`:
`not (self < other) and self != other`, with the short-circuit of `and`. -/
def delta_gt (self : yearmonthdelta) (other : Operand) :
    Except PyError Bool :=
  match delta_lt self other with
  | .error e => .error e
  | .ok b => if b then .ok false else delta_ne self other

/-- The `__le__` filled in by `functools.total_ordering` from `__lt__`:
`(self < other) or self == other`, with the short-circuit of `or`. -/
def delta_le (self : yearmonthdelta) (other : Operand) :
    Except PyError Bool :=
  match delta_lt self other with
  | .error e => .error e
  | .ok b => if b then .ok true else delta_eq self other

/-- The `__ge__` filled in by `functools.total_ordering` from `__lt__`:
`not (self < other)`. -/
def delta_ge (self : yearmonthdelta) (other : Operand) :
    Except PyError Bool :=
  match delta_lt self other with
  | .error e => .error e
  | .ok b => .ok (!b)

/-- Embedding of `yearmonthdelta._ngettext`. -/
def _ngettext (singular plural : String) (count : Int) : String :=
  if count.natAbs == 1 then singular else plural

/-- Embedding of `yearmonthdelta.__str__`: normalize, then render. -/
def yearmonthdelta.str (d : yearmonthdelta) : String :=
  let p := yearmonthdelta._normalize d.years d.months
  toString p.1 ++ " " ++ _ngettext "year" "years" p.1 ++ " " ++
    toString p.2 ++ " " ++ _ngettext "month" "months" p.2

/-! Helper lemmas about normalization and the calendar model. -/

theorem normalize_total (y m : Int) :
    (yearmonthdelta._normalize y m).1 * 12 +
      (yearmonthdelta._normalize y m).2 = y * 12 + m := by
  simp only [yearmonthdelta._normalize]
  split_ifs with h0 hneg <;> simp only [] <;> omega

theorem normalize_pos (y m : Int) (h : 0 < y * 12 + m) :
    0 ≤ (yearmonthdelta._normalize y m).1 ∧
      1 ≤ (yearmonthdelta._normalize y m).2 ∧
      (yearmonthdelta._normalize y m).2 ≤ 12 := by
  simp only [yearmonthdelta._normalize]
  split_ifs with h0 hneg <;> simp only [] <;> omega

theorem normalize_nonpos (y m : Int) (h : y * 12 + m ≤ 0) :
    (yearmonthdelta._normalize y m).1 ≤ 0 ∧
      (yearmonthdelta._normalize y m).2 ≤ 0 := by
  simp only [yearmonthdelta._normalize]
  split_ifs with h0 hneg <;> simp only [] <;> omega

theorem days_in_month_lb (y mo : Int) (h1 : 1 ≤ mo) (h2 : mo ≤ 12) :
    28 ≤ days_in_month y mo := by
  interval_cases mo <;> unfold days_in_month mdays <;> split <;> decide

/-- C1: for every pair of integers (years, months) with total = years*12 +
months, `_normalize` returns (0, 0) when total = 0, and otherwise a pair
(years', months') with years'*12 + months' = total, 1 <= abs(months') <= 12,
sign(months') = sign(total), years' = sign(total) * ((abs(total) - 1) div 12)
and months' = sign(total) * (((abs(total) - 1) mod 12) + 1); in particular
normalize(2000, 25) = (2002, 1) and normalize(1, -25) = (-1, -1). -/
theorem normalize_correct (y m : Int) :
    (y * 12 + m = 0 → yearmonthdelta._normalize y m = (0, 0)) ∧
    (y * 12 + m ≠ 0 →
      (yearmonthdelta._normalize y m).1 * 12 +
          (yearmonthdelta._normalize y m).2 = y * 12 + m ∧
        1 ≤ (yearmonthdelta._normalize y m).2.natAbs ∧
        (yearmonthdelta._normalize y m).2.natAbs ≤ 12 ∧
        (yearmonthdelta._normalize y m).2.sign = (y * 12 + m).sign ∧
        (yearmonthdelta._normalize y m).1 =
          (y * 12 + m).sign * ((((y * 12 + m).natAbs - 1) / 12 : Nat) : Int) ∧
        (yearmonthdelta._normalize y m).2 =
          (y * 12 + m).sign *
            (((((y * 12 + m).natAbs - 1) % 12 : Nat) : Int) + 1)) ∧
    yearmonthdelta._normalize 2000 25 = (2002, 1) ∧
    yearmonthdelta._normalize 1 (-25) = (-1, -1) := by
  refine ⟨fun h => by simp [yearmonthdelta._normalize, h], fun h => ?_,
    by decide, by decide⟩
  rcases lt_or_gt_of_ne h with hneg | hpos
  · have hs : (y * 12 + m).sign = -1 := Int.sign_eq_neg_one_iff_neg.mpr hneg
    simp only [yearmonthdelta._normalize]
    rw [if_neg h, if_pos hneg]
    have hm : ((-(((((y * 12 + m).natAbs - 1) % 12 + 1 : Nat) : Int)) : Int)).sign
        = -1 := Int.sign_eq_neg_one_iff_neg.mpr (by omega)
    refine ⟨by omega, by omega, by omega, ?_, by rw [hs]; omega, by rw [hs]; omega⟩
    simp only []
    rw [hs, hm]
  · have hs : (y * 12 + m).sign = 1 := Int.sign_eq_one_iff_pos.mpr hpos
    simp only [yearmonthdelta._normalize]
    rw [if_neg h, if_neg (by omega)]
    have hm : (((((y * 12 + m).natAbs - 1) % 12 + 1 : Nat) : Int)).sign = 1 :=
      Int.sign_eq_one_iff_pos.mpr (by omega)
    refine ⟨by omega, by omega, by omega, ?_, by rw [hs]; omega, by rw [hs]; omega⟩
    simp only []
    rw [hs, hm]

/-- Witness for C1 at the concrete input (2000, 25). -/
theorem normalize_correct_witness :
    (2000 * 12 + 25 : Int) ≠ 0 ∧
      (yearmonthdelta._normalize 2000 25).1 * 12 +
        (yearmonthdelta._normalize 2000 25).2 = 2000 * 12 + 25 :=
  ⟨by decide, ((normalize_correct 2000 25).2.1 (by decide)).1⟩

/-- C4: Delta + Delta returns exactly the raw field sums with the AND of
the rounding flags, Delta + integer adds the integer to months, and
integer + Delta raises a type-mismatch error. -/
theorem add_operator_correct (a b : yearmonthdelta) (n : Int) :
    pyAdd (.delta a) (.delta b) =
      .ok (.delta ⟨a.years + b.years, a.months + b.months,
        a.rounding && b.rounding⟩) ∧
    pyAdd (.delta a) (.int n) =
      .ok (.delta ⟨a.years, a.months + n, a.rounding⟩) ∧
    pyAdd (.int n) (.delta a) =
      .error (.typeError
        "unsupported operand type for +: int and yearmonthdelta") :=
  ⟨rfl, rfl, rfl⟩

/-- C5: every comparison and equality operator between two Deltas is decided
solely by the integer order of their raw total months, the rounding flag
playing no role; in particular Delta(1,0) equals Delta(0,12) even with
different rounding flags, Delta(1,0) > Delta(0,12) is false,
Delta(1,0) > Delta(0,11) is true and Delta(1,0) >= Delta(0,12) is true. -/
theorem compare_by_total_months (a b : yearmonthdelta) :
    delta_lt a (.delta b) =
      .ok (decide (a.years * 12 + a.months < b.years * 12 + b.months)) ∧
    delta_eq a (.delta b) =
      .ok (decide (a.years * 12 + a.months = b.years * 12 + b.months)) ∧
    delta_ne a (.delta b) =
      .ok (decide (a.years * 12 + a.months ≠ b.years * 12 + b.months)) ∧
    delta_gt a (.delta b) =
      .ok (decide (b.years * 12 + b.months < a.years * 12 + a.months)) ∧
    delta_le a (.delta b) =
      .ok (decide (a.years * 12 + a.months ≤ b.years * 12 + b.months)) ∧
    delta_ge a (.delta b) =
      .ok (decide (b.years * 12 + b.months ≤ a.years * 12 + a.months)) ∧
    delta_eq ⟨1, 0, true⟩ (.delta ⟨0, 12, false⟩) = .ok true ∧
    delta_gt ⟨1, 0, true⟩ (.delta ⟨0, 12, true⟩) = .ok false ∧
    delta_gt ⟨1, 0, true⟩ (.delta ⟨0, 11, true⟩) = .ok true ∧
    delta_ge ⟨1, 0, true⟩ (.delta ⟨0, 12, true⟩) = .ok true := by
  refine ⟨rfl, ?_, ?_, ?_, ?_, ?_, rfl, rfl, rfl, rfl⟩
  · by_cases h : a.years * 12 + a.months = b.years * 12 + b.months <;>
      simp [delta_eq, yearmonthdelta._total_months, h]
  · by_cases h : a.years * 12 + a.months = b.years * 12 + b.months <;>
      simp [delta_ne, delta_eq, yearmonthdelta._total_months, h]
  · rcases lt_trichotomy (a.years * 12 + a.months)
      (b.years * 12 + b.months) with h | h | h
    · have h2 : ¬ b.years * 12 + b.months < a.years * 12 + a.months := by omega
      simp [delta_gt, delta_lt, delta_ne, delta_eq,
        yearmonthdelta._total_months, h, h2]
    · simp [delta_gt, delta_lt, delta_ne, delta_eq,
        yearmonthdelta._total_months, h]
    · have h2 : ¬ a.years * 12 + a.months < b.years * 12 + b.months := by omega
      have h3 : ¬ a.years * 12 + a.months = b.years * 12 + b.months := by omega
      simp [delta_gt, delta_lt, delta_ne, delta_eq,
        yearmonthdelta._total_months, h, h2, h3]
  · rcases lt_trichotomy (a.years * 12 + a.months)
      (b.years * 12 + b.months) with h | h | h
    · have h2 : a.years * 12 + a.months ≤ b.years * 12 + b.months := le_of_lt h
      simp [delta_le, delta_lt, delta_eq, yearmonthdelta._total_months, h, h2]
    · simp [delta_le, delta_lt, delta_eq, yearmonthdelta._total_months, h]
    · have h2 : ¬ a.years * 12 + a.months < b.years * 12 + b.months := by omega
      have h3 : ¬ a.years * 12 + a.months = b.years * 12 + b.months := by omega
      have h4 : ¬ a.years * 12 + a.months ≤ b.years * 12 + b.months := by omega
      simp [delta_le, delta_lt, delta_eq,
        yearmonthdelta._total_months, h2, h3, h4]
  · by_cases h : a.years * 12 + a.months < b.years * 12 + b.months
    · have h2 : ¬ b.years * 12 + b.months ≤ a.years * 12 + a.months := by omega
      simp [delta_ge, delta_lt, yearmonthdelta._total_months, h, h2]
    · have h2 : b.years * 12 + b.months ≤ a.years * 12 + a.months := by omega
      simp [delta_ge, delta_lt, yearmonthdelta._total_months, h, h2]

/-- C6: every ordering, equality and inequality comparison of a Delta
against a non-Delta operand fails with a type-mismatch error instead of
returning a boolean. -/
theorem compare_non_delta (d : yearmonthdelta) (x : Operand)
    (hx : x.isDelta = false) :
    delta_lt d x =
      .error (.typeError ("cannot compare yearmonthdelta to " ++ x.typeName)) ∧
    delta_eq d x =
      .error (.typeError ("cannot compare yearmonthdelta to " ++ x.typeName)) ∧
    delta_ne d x =
      .error (.typeError ("cannot compare yearmonthdelta to " ++ x.typeName)) ∧
    delta_gt d x =
      .error (.typeError ("cannot compare yearmonthdelta to " ++ x.typeName)) ∧
    delta_le d x =
      .error (.typeError ("cannot compare yearmonthdelta to " ++ x.typeName)) ∧
    delta_ge d x =
      .error (.typeError ("cannot compare yearmonthdelta to " ++ x.typeName)) := by
  cases x with
  | delta o => simp [Operand.isDelta] at hx
  | int n => exact ⟨rfl, rfl, rfl, rfl, rfl, rfl⟩
  | date dt => exact ⟨rfl, rfl, rfl, rfl, rfl, rfl⟩
  | float f => exact ⟨rfl, rfl, rfl, rfl, rfl, rfl⟩
  | str s => exact ⟨rfl, rfl, rfl, rfl, rfl, rfl⟩

/-- Witness for C6: comparing Delta(1,11) to the integer 1 raises the
type-mismatch error. -/
theorem compare_non_delta_witness :
    (Operand.int 1).isDelta = false ∧
      delta_lt ⟨1, 11, true⟩ (.int 1) =
        .error (.typeError "cannot compare yearmonthdelta to int") :=
  ⟨rfl, (compare_non_delta ⟨1, 11, true⟩ (.int 1) rfl).1⟩

/-- C7: date - Delta applies the negated Delta to the date; Delta - Delta
and Delta - integer are Delta + (negated operand); Delta - date fails with
a type-mismatch error. -/
theorem sub_correct (dt : DateTime) (v w : yearmonthdelta) (n : Int) :
    pySub (.date dt) (.delta v) =
      ((⟨-v.years, -v.months, v.rounding⟩ :
        yearmonthdelta)._add_datetime dt).map Operand.date ∧
    pySub (.delta v) (.delta w) =
      pyAdd (.delta v) (.delta ⟨-w.years, -w.months, w.rounding⟩) ∧
    pySub (.delta v) (.int n) = pyAdd (.delta v) (.int (-n)) ∧
    pySub (.delta v) (.date dt) =
      .error (.typeError "bad operand type for unary -: datetime.datetime") :=
  ⟨rfl, rfl, rfl, rfl⟩

/-- C8: Delta times integer, in either operand order, multiplies both raw
fields by the integer and keeps the rounding flag; multiplying by any
non-integer operand fails with a type-mismatch error; in particular
Delta(2,1) * 3 = Delta(6,3) = 3 * Delta(2,1). -/
theorem mul_correct (d : yearmonthdelta) (n : Int) (x : Operand)
    (hx : x.isInt = false) :
    pyMul (.delta d) (.int n) =
      .ok (.delta ⟨d.years * n, d.months * n, d.rounding⟩) ∧
    pyMul (.int n) (.delta d) =
      .ok (.delta ⟨d.years * n, d.months * n, d.rounding⟩) ∧
    pyMul (.delta d) x =
      .error (.typeError
        ("unsupported operand type for *: yearmonthdelta and " ++
          x.typeName)) ∧
    pyMul (.delta ⟨2, 1, true⟩) (.int 3) = .ok (.delta ⟨6, 3, true⟩) ∧
    pyMul (.int 3) (.delta ⟨2, 1, true⟩) = .ok (.delta ⟨6, 3, true⟩) := by
  cases x with
  | int m => simp [Operand.isInt] at hx
  | delta o => exact ⟨rfl, rfl, rfl, rfl, rfl⟩
  | date dt => exact ⟨rfl, rfl, rfl, rfl, rfl⟩
  | float f => exact ⟨rfl, rfl, rfl, rfl, rfl⟩
  | str s => exact ⟨rfl, rfl, rfl, rfl, rfl⟩

/-- Witness for C8: multiplying Delta(2,1) by the float 2.0 raises the
type-mismatch error. -/
theorem mul_correct_witness :
    (Operand.float 2).isInt = false ∧
      pyMul (.delta ⟨2, 1, true⟩) (.float 2) =
        .error (.typeError
          "unsupported operand type for *: yearmonthdelta and float") :=
  ⟨rfl, (mul_correct ⟨2, 1, true⟩ 0 (.float 2) rfl).2.2.1⟩

/-- C9: the string rendering first normalizes the pair and then prints
years and months with the singular label exactly when the normalized count
has absolute value 1; in particular str(Delta(1,-13)) is
"0 years -1 month". -/
theorem str_correct (d : yearmonthdelta) :
    yearmonthdelta.str d =
      toString (yearmonthdelta._normalize d.years d.months).1 ++ " " ++
        (if (yearmonthdelta._normalize d.years d.months).1.natAbs = 1
          then "year" else "years") ++ " " ++
        toString (yearmonthdelta._normalize d.years d.months).2 ++ " " ++
        (if (yearmonthdelta._normalize d.years d.months).2.natAbs = 1
          then "month" else "months") ∧
    yearmonthdelta.str ⟨1, -13, true⟩ = "0 years -1 month" := by
  refine ⟨?_, rfl⟩
  by_cases h1 : (yearmonthdelta._normalize d.years d.months).1.natAbs = 1 <;>
    by_cases h2 : (yearmonthdelta._normalize d.years d.months).2.natAbs = 1 <;>
    simp [yearmonthdelta.str, _ngettext, h1, h2]

/-! Evaluation lemmas for the host replace and for `_add_datetime`. -/

theorem replace_ok (dt : DateTime) (y mo d : Int)
    (h1 : 1 ≤ y ∧ y ≤ 9999) (h2 : 1 ≤ mo ∧ mo ≤ 12)
    (h3 : 1 ≤ d ∧ d ≤ (days_in_month y mo : Int)) :
    dt.replace y mo d = .ok { dt with year := y, month := mo, day := d } := by
  unfold DateTime.replace
  rw [if_pos h1, if_pos h2, if_pos h3]

theorem replace_year_err (dt : DateTime) (y mo d : Int)
    (h : ¬ (1 ≤ y ∧ y ≤ 9999)) :
    dt.replace y mo d = .error (.valueError "year must be in 1..9999") := by
  unfold DateTime.replace
  rw [if_neg h]

theorem replace_day_err (dt : DateTime) (y mo d : Int)
    (h1 : 1 ≤ y ∧ y ≤ 9999) (h2 : 1 ≤ mo ∧ mo ≤ 12)
    (h3 : ¬ (1 ≤ d ∧ d ≤ (days_in_month y mo : Int))) :
    dt.replace y mo d =
      .error (.valueError "day is out of range for month") := by
  unfold DateTime.replace
  rw [if_pos h1, if_pos h2, if_neg h3]

theorem add_datetime_rounding_eval (dt : DateTime) (v : yearmonthdelta)
    (hr : v.rounding = true)
    (hm : 1 ≤ (yearmonthdelta._normalize (dt.year + v.years)
          (dt.month + v.months)).2 ∧
        (yearmonthdelta._normalize (dt.year + v.years)
          (dt.month + v.months)).2 ≤ 12) :
    v._add_datetime dt =
      dt.replace
        (yearmonthdelta._normalize (dt.year + v.years)
          (dt.month + v.months)).1
        (yearmonthdelta._normalize (dt.year + v.years)
          (dt.month + v.months)).2
        (min dt.day
          ((days_in_month
            (yearmonthdelta._normalize (dt.year + v.years)
              (dt.month + v.months)).1
            (yearmonthdelta._normalize (dt.year + v.years)
              (dt.month + v.months)).2 : Nat) : Int)) := by
  simp only [yearmonthdelta._add_datetime, monthrange, hr, eq_self_iff_true,
    if_true]
  rw [if_pos hm]

theorem add_datetime_rounding_badmonth (dt : DateTime) (v : yearmonthdelta)
    (hr : v.rounding = true)
    (hm : ¬ (1 ≤ (yearmonthdelta._normalize (dt.year + v.years)
          (dt.month + v.months)).2 ∧
        (yearmonthdelta._normalize (dt.year + v.years)
          (dt.month + v.months)).2 ≤ 12)) :
    v._add_datetime dt =
      .error (.valueError "bad month number; must be 1-12") := by
  simp only [yearmonthdelta._add_datetime, monthrange, hr, eq_self_iff_true,
    if_true]
  rw [if_neg hm]

theorem add_datetime_norounding_eval (dt : DateTime) (v : yearmonthdelta)
    (hr : v.rounding = false) :
    v._add_datetime dt =
      dt.replace
        (yearmonthdelta._normalize (dt.year + v.years)
          (dt.month + v.months)).1
        (yearmonthdelta._normalize (dt.year + v.years)
          (dt.month + v.months)).2
        dt.day := by
  simp [yearmonthdelta._add_datetime, hr]

/-- C2 counterexample: the claim fails as stated.  The date 0001-01-01 is
valid and Delta(0,-1) has rounding on, yet adding them raises a year-range
error instead of returning the claimed clamped date, because the normalized
target year 0 is not representable by the host. -/
theorem add_rounding_counterexample :
    DateTime.valid ⟨1, 1, 1, 0, 0⟩ ∧
      (⟨0, -1, true⟩ : yearmonthdelta).rounding = true ∧
      pyAdd (.date ⟨1, 1, 1, 0, 0⟩) (.delta ⟨0, -1, true⟩) =
        .error (.valueError "year must be in 1..9999") :=
  ⟨by decide, rfl, rfl⟩

/-- C2 (amended): for every valid date d and Delta v with rounding on whose
normalized target year lands in the host range 1..9999, adding v to d, in
either operand order, returns the date with the normalized target year and
month, the day clamped to min(d.day, days-in-month of the target), and the
time-of-day unchanged. -/
theorem add_rounding_clamps (dt : DateTime) (v : yearmonthdelta)
    (hdt : dt.valid) (hr : v.rounding = true)
    (h1 : 1 ≤ (yearmonthdelta._normalize (dt.year + v.years)
      (dt.month + v.months)).1)
    (h2 : (yearmonthdelta._normalize (dt.year + v.years)
      (dt.month + v.months)).1 ≤ 9999) :
    pyAdd (.delta v) (.date dt) =
      .ok (.date { dt with
        year := (yearmonthdelta._normalize (dt.year + v.years)
          (dt.month + v.months)).1,
        month := (yearmonthdelta._normalize (dt.year + v.years)
          (dt.month + v.months)).2,
        day := min dt.day
          ((days_in_month
            (yearmonthdelta._normalize (dt.year + v.years)
              (dt.month + v.months)).1
            (yearmonthdelta._normalize (dt.year + v.years)
              (dt.month + v.months)).2 : Nat) : Int) }) ∧
    pyAdd (.date dt) (.delta v) = pyAdd (.delta v) (.date dt) := by
  obtain ⟨hy1, hy2, hm1, hm2, hd1, hd2⟩ := hdt
  have hpos : 0 < (dt.year + v.years) * 12 + (dt.month + v.months) := by
    by_contra hle
    push_neg at hle
    have := normalize_nonpos (dt.year + v.years) (dt.month + v.months) hle
    omega
  have hb := normalize_pos (dt.year + v.years) (dt.month + v.months) hpos
  have hdim := days_in_month_lb
    (yearmonthdelta._normalize (dt.year + v.years) (dt.month + v.months)).1
    (yearmonthdelta._normalize (dt.year + v.years) (dt.month + v.months)).2
    hb.2.1 hb.2.2
  refine ⟨?_, rfl⟩
  have heval := add_datetime_rounding_eval dt v hr ⟨hb.2.1, hb.2.2⟩
  have hrep := replace_ok dt
    (yearmonthdelta._normalize (dt.year + v.years) (dt.month + v.months)).1
    (yearmonthdelta._normalize (dt.year + v.years) (dt.month + v.months)).2
    (min dt.day
      ((days_in_month
        (yearmonthdelta._normalize (dt.year + v.years)
          (dt.month + v.months)).1
        (yearmonthdelta._normalize (dt.year + v.years)
          (dt.month + v.months)).2 : Nat) : Int))
    ⟨h1, h2⟩ ⟨hb.2.1, hb.2.2⟩ (by omega)
  show (v._add_datetime dt).map Operand.date = _
  rw [heval, hrep]
  rfl

/-- Witness for C2 (amended): datetime(2013,3,31) + Delta(0,-1) with the
default rounding yields datetime(2013,2,28,0,0). -/
theorem add_rounding_clamps_witness :
    DateTime.valid ⟨2013, 3, 31, 0, 0⟩ ∧
      pyAdd (.delta ⟨0, -1, true⟩) (.date ⟨2013, 3, 31, 0, 0⟩) =
        .ok (.date ⟨2013, 2, 28, 0, 0⟩) := by
  refine ⟨by decide, ?_⟩
  have h := (add_rounding_clamps ⟨2013, 3, 31, 0, 0⟩ ⟨0, -1, true⟩
    (by decide) rfl (by decide) (by decide)).1
  rw [h]
  rfl

/-- C3 counterexample: the claim fails as stated.  The date 0001-01-31 is
valid, Delta(0,-1,rounding=false) gives the normalized target (0, 12) whose
month has 31 days, so the day 31 does not exceed the target month length;
the claim then promises the date (0, 12, 31), but the code raises a
year-range error (and not the day-out-of-range error). -/
theorem add_norounding_counterexample :
    DateTime.valid ⟨1, 1, 31, 0, 0⟩ ∧
      ((⟨1, 1, 31, 0, 0⟩ : DateTime).day ≤
        (days_in_month
          (yearmonthdelta._normalize 1 0).1
          (yearmonthdelta._normalize 1 0).2 : Int)) ∧
      pyAdd (.date ⟨1, 1, 31, 0, 0⟩) (.delta ⟨0, -1, false⟩) =
        .error (.valueError "year must be in 1..9999") :=
  ⟨by decide, by decide, rfl⟩

/-- C3 (amended): for every valid date d and Delta v with rounding off whose
normalized target year lands in the host range 1..9999, applying v to d
raises the day-out-of-range error exactly when d.day exceeds the
days-in-month of the normalized target, and otherwise returns the date
(year', month', d.day) with the time-of-day preserved. -/
theorem add_norounding_day_check (dt : DateTime) (v : yearmonthdelta)
    (hdt : dt.valid) (hr : v.rounding = false)
    (h1 : 1 ≤ (yearmonthdelta._normalize (dt.year + v.years)
      (dt.month + v.months)).1)
    (h2 : (yearmonthdelta._normalize (dt.year + v.years)
      (dt.month + v.months)).1 ≤ 9999) :
    (((days_in_month
        (yearmonthdelta._normalize (dt.year + v.years)
          (dt.month + v.months)).1
        (yearmonthdelta._normalize (dt.year + v.years)
          (dt.month + v.months)).2 : Nat) : Int) < dt.day →
      pyAdd (.date dt) (.delta v) =
        .error (.valueError "day is out of range for month")) ∧
    (dt.day ≤ ((days_in_month
        (yearmonthdelta._normalize (dt.year + v.years)
          (dt.month + v.months)).1
        (yearmonthdelta._normalize (dt.year + v.years)
          (dt.month + v.months)).2 : Nat) : Int) →
      pyAdd (.date dt) (.delta v) =
        .ok (.date { dt with
          year := (yearmonthdelta._normalize (dt.year + v.years)
            (dt.month + v.months)).1,
          month := (yearmonthdelta._normalize (dt.year + v.years)
            (dt.month + v.months)).2,
          day := dt.day })) := by
  obtain ⟨hy1, hy2, hm1, hm2, hd1, hd2⟩ := hdt
  have hpos : 0 < (dt.year + v.years) * 12 + (dt.month + v.months) := by
    by_contra hle
    push_neg at hle
    have := normalize_nonpos (dt.year + v.years) (dt.month + v.months) hle
    omega
  have hb := normalize_pos (dt.year + v.years) (dt.month + v.months) hpos
  have heval := add_datetime_norounding_eval dt v hr
  constructor
  · intro hday
    have hrep := replace_day_err dt
      (yearmonthdelta._normalize (dt.year + v.years) (dt.month + v.months)).1
      (yearmonthdelta._normalize (dt.year + v.years) (dt.month + v.months)).2
      dt.day ⟨h1, h2⟩ ⟨hb.2.1, hb.2.2⟩ (by omega)
    show (v._add_datetime dt).map Operand.date = _
    rw [heval, hrep]
    rfl
  · intro hday
    have hrep := replace_ok dt
      (yearmonthdelta._normalize (dt.year + v.years) (dt.month + v.months)).1
      (yearmonthdelta._normalize (dt.year + v.years) (dt.month + v.months)).2
      dt.day ⟨h1, h2⟩ ⟨hb.2.1, hb.2.2⟩ ⟨hd1, hday⟩
    show (v._add_datetime dt).map Operand.date = _
    rw [heval, hrep]
    rfl

/-- Witness for C3 (amended): datetime(2013,3,31) + Delta(0,-1,False)
raises the day-out-of-range error. -/
theorem add_norounding_day_check_witness :
    DateTime.valid ⟨2013, 3, 31, 0, 0⟩ ∧
      pyAdd (.date ⟨2013, 3, 31, 0, 0⟩) (.delta ⟨0, -1, false⟩) =
        .error (.valueError "day is out of range for month") :=
  ⟨by decide,
    (add_norounding_day_check ⟨2013, 3, 31, 0, 0⟩ ⟨0, -1, false⟩
      (by decide) rfl (by decide) (by decide)).1 (by decide)⟩

/-- C10: applying a Delta with rounding on to a valid date is not total:
it succeeds exactly when the normalized target is a representable host
position, i.e. target year in 1..9999 and target month positive,
equivalently when the target total months lies in 13..120000; outside that
range the days-in-month lookup or the date construction fails even though
rounding is enabled, since the day clamp only guards the day field. -/
theorem add_rounding_success_iff (dt : DateTime) (v : yearmonthdelta)
    (hdt : dt.valid) (hr : v.rounding = true) :
    ((∃ r, v._add_datetime dt = .ok r) ↔
      (1 ≤ (yearmonthdelta._normalize (dt.year + v.years)
          (dt.month + v.months)).1 ∧
        (yearmonthdelta._normalize (dt.year + v.years)
          (dt.month + v.months)).1 ≤ 9999 ∧
        1 ≤ (yearmonthdelta._normalize (dt.year + v.years)
          (dt.month + v.months)).2)) ∧
    ((∃ r, v._add_datetime dt = .ok r) ↔
      (13 ≤ (dt.year + v.years) * 12 + (dt.month + v.months) ∧
        (dt.year + v.years) * 12 + (dt.month + v.months) ≤ 120000)) := by
  obtain ⟨hy1, hy2, hm1, hm2, hd1, hd2⟩ := hdt
  have htot := normalize_total (dt.year + v.years) (dt.month + v.months)
  rcases le_or_lt ((dt.year + v.years) * 12 + (dt.month + v.months)) 0
    with hT | hT
  · have hnp := normalize_nonpos (dt.year + v.years) (dt.month + v.months) hT
    have hfail := add_datetime_rounding_badmonth dt v hr (by omega)
    rw [hfail]
    constructor <;> constructor
    · rintro ⟨r, hre⟩
      cases hre
    · intro h
      omega
    · rintro ⟨r, hre⟩
      cases hre
    · intro h
      omega
  · have hb := normalize_pos (dt.year + v.years) (dt.month + v.months) hT
    have hdim := days_in_month_lb
      (yearmonthdelta._normalize (dt.year + v.years) (dt.month + v.months)).1
      (yearmonthdelta._normalize (dt.year + v.years) (dt.month + v.months)).2
      hb.2.1 hb.2.2
    have heval := add_datetime_rounding_eval dt v hr ⟨hb.2.1, hb.2.2⟩
    by_cases hy : 1 ≤ (yearmonthdelta._normalize (dt.year + v.years)
        (dt.month + v.months)).1 ∧
        (yearmonthdelta._normalize (dt.year + v.years)
          (dt.month + v.months)).1 ≤ 9999
    · have hok := heval.trans (replace_ok dt _ _ _ hy ⟨hb.2.1, hb.2.2⟩
        (by omega))
      constructor
      · exact ⟨fun _ => ⟨hy.1, hy.2, hb.2.1⟩, fun _ => ⟨_, hok⟩⟩
      · exact ⟨fun _ => by omega, fun _ => ⟨_, hok⟩⟩
    · have hfail := heval.trans (replace_year_err dt _ _ _ hy)
      rw [hfail]
      constructor <;> constructor
      · rintro ⟨r, hre⟩
        cases hre
      · intro h
        omega
      · rintro ⟨r, hre⟩
        cases hre
      · intro h
        exact absurd (by omega :
          1 ≤ (yearmonthdelta._normalize (dt.year + v.years)
            (dt.month + v.months)).1 ∧
          (yearmonthdelta._normalize (dt.year + v.years)
            (dt.month + v.months)).1 ≤ 9999) hy

/-- Witness for C10: at the valid date 0001-01-01 and the Delta(-5,0) the
target total months is negative, the success criterion is refuted, and the
application indeed fails with the host month error despite rounding. -/
theorem add_rounding_success_iff_witness :
    DateTime.valid ⟨1, 1, 1, 0, 0⟩ ∧
      ((∃ r, (⟨-5, 0, true⟩ : yearmonthdelta)._add_datetime
          ⟨1, 1, 1, 0, 0⟩ = .ok r) ↔
        (13 ≤ ((⟨1, 1, 1, 0, 0⟩ : DateTime).year +
            (⟨-5, 0, true⟩ : yearmonthdelta).years) * 12 +
            ((⟨1, 1, 1, 0, 0⟩ : DateTime).month +
              (⟨-5, 0, true⟩ : yearmonthdelta).months) ∧
          ((⟨1, 1, 1, 0, 0⟩ : DateTime).year +
            (⟨-5, 0, true⟩ : yearmonthdelta).years) * 12 +
            ((⟨1, 1, 1, 0, 0⟩ : DateTime).month +
              (⟨-5, 0, true⟩ : yearmonthdelta).months) ≤ 120000)) ∧
      (⟨-5, 0, true⟩ : yearmonthdelta)._add_datetime ⟨1, 1, 1, 0, 0⟩ =
        .error (.valueError "bad month number; must be 1-12") :=
  ⟨by decide,
    (add_rounding_success_iff ⟨1, 1, 1, 0, 0⟩ ⟨-5, 0, true⟩
      (by decide) rfl).2, rfl⟩
